import Mathlib

/-!
Verification of the `Region` component of `rusoto` (`src/region.rs`).

The Rust source defines an enum `Region` with ten variants, a `Display`
implementation mapping each variant to its canonical lowercase hyphenated
identifier (called `toIdentifier` in the specification), a `FromStr`
implementation (`from_str`, called `parse` in the specification) matching an
input string exactly against the ten canonical identifiers, and an error type
`ParseRegionError` carrying a message string built by `ParseRegionError::new`.

The Lean definitions below are a shallow embedding of that source, clause by
clause; the theorems settle the specification's claims about it.
-/

namespace Rusoto

/-- The `Region` enum from `src/region.rs`: the ten AWS region variants. -/
inductive Region where
  | ApNortheast1
  | ApSoutheast1
  | ApSoutheast2
  | EuCentral1
  | EuWest1
  | SaEast1
  | UsEast1
  | UsWest1
  | UsWest2
  | CnNorth1
  deriving DecidableEq

/-- The `ParseRegionError` struct from `src/region.rs`: a single `message`
field. The Rust `derive(PartialEq)` compares by that field, which is exactly
structural equality here. -/
structure ParseRegionError where
  message : String
  deriving DecidableEq

/-- The `Display` implementation for `Region` (`fmt`), which writes the
`region_str` chosen by the match on `self`; the specification calls this
function `toIdentifier`. -/
def toIdentifier : Region → String
  | .ApNortheast1 => "ap-northeast-1"
  | .ApSoutheast1 => "ap-southeast-1"
  | .ApSoutheast2 => "ap-southeast-2"
  | .EuCentral1 => "eu-central-1"
  | .EuWest1 => "eu-west-1"
  | .SaEast1 => "sa-east-1"
  | .UsEast1 => "us-east-1"
  | .UsWest1 => "us-west-1"
  | .UsWest2 => "us-west-2"
  | .CnNorth1 => "cn-north-1"

/-- `ParseRegionError::new`, which formats `"Not a valid AWS region: {}"`
with the input string. -/
def ParseRegionError.new (input : String) : ParseRegionError :=
  { message := "Not a valid AWS region: " ++ input }

/-- The `FromStr` implementation for `Region` (`from_str`); the specification
calls it `parse`. The Rust `match` on a string is a sequence of exact
equality tests against the literal patterns, with the catch-all arm
producing `Err(ParseRegionError::new(s))`. -/
def from_str (s : String) : Except ParseRegionError Region :=
  if s = "ap-northeast-1" then .ok .ApNortheast1
  else if s = "ap-southeast-1" then .ok .ApSoutheast1
  else if s = "ap-southeast-2" then .ok .ApSoutheast2
  else if s = "eu-central-1" then .ok .EuCentral1
  else if s = "eu-west-1" then .ok .EuWest1
  else if s = "sa-east-1" then .ok .SaEast1
  else if s = "us-east-1" then .ok .UsEast1
  else if s = "us-west-1" then .ok .UsWest1
  else if s = "us-west-2" then .ok .UsWest2
  else if s = "cn-north-1" then .ok .CnNorth1
  else .error (ParseRegionError.new s)

/-- The ten canonical identifiers, in the order of the match arms of
`from_str` in `src/region.rs`. -/
def canonicalIdentifiers : List String :=
  ["ap-northeast-1", "ap-southeast-1", "ap-southeast-2", "eu-central-1",
   "eu-west-1", "sa-east-1", "us-east-1", "us-west-1", "us-west-2", "cn-north-1"]

deriving instance DecidableEq for Except

/-- Helper: `from_str` returns `ok r` exactly when the input is the canonical
identifier of `r`. -/
theorem from_str_ok_helper (s : String) (r : Region) :
    from_str s = Except.ok r ↔ toIdentifier r = s := by
  unfold from_str
  split_ifs with h1 h2 h3 h4 h5 h6 h7 h8 h9 h10 <;>
    (constructor
     · intro h
       first
         | exact h.elim
         | (injection h with h'; subst h'; simp_all [toIdentifier])
     · intro h
       subst h
       cases r <;> simp_all [toIdentifier])

/-- Helper: a string is in `canonicalIdentifiers` exactly when it is the
identifier of some variant. -/
theorem mem_canonical_iff (s : String) :
    s ∈ canonicalIdentifiers ↔ ∃ r : Region, toIdentifier r = s := by
  constructor
  · intro h
    simp only [canonicalIdentifiers, List.mem_cons, List.not_mem_nil, or_false] at h
    rcases h with h | h | h | h | h | h | h | h | h | h <;> subst h
    exacts [⟨.ApNortheast1, rfl⟩, ⟨.ApSoutheast1, rfl⟩, ⟨.ApSoutheast2, rfl⟩,
      ⟨.EuCentral1, rfl⟩, ⟨.EuWest1, rfl⟩, ⟨.SaEast1, rfl⟩, ⟨.UsEast1, rfl⟩,
      ⟨.UsWest1, rfl⟩, ⟨.UsWest2, rfl⟩, ⟨.CnNorth1, rfl⟩]
  · rintro ⟨r, rfl⟩
    cases r <;> simp [toIdentifier, canonicalIdentifiers]

/-- Helper: on any input that is not a canonical identifier, `from_str` takes
the catch-all arm. -/
theorem from_str_not_mem (s : String) (h : s ∉ canonicalIdentifiers) :
    from_str s = Except.error (ParseRegionError.new s) := by
  unfold from_str
  split_ifs with h1 h2 h3 h4 h5 h6 h7 h8 h9 h10 <;>
    first
      | rfl
      | simp_all [canonicalIdentifiers]

/-- Helper: `ParseRegionError.new` is injective, because string append with a
fixed left operand is left-cancellative. -/
theorem new_inj (s1 s2 : String)
    (h : ParseRegionError.new s1 = ParseRegionError.new s2) : s1 = s2 := by
  have hm : ("Not a valid AWS region: " ++ s1) = ("Not a valid AWS region: " ++ s2) :=
    congrArg ParseRegionError.message h
  have hd := congrArg String.data hm
  simp only [String.data_append] at hd
  exact String.ext (List.append_cancel_left hd)

/-- Claim C1: for every `Region` variant `r`, parsing the canonical identifier
produced for `r` returns exactly `Ok r`. -/
theorem parse_toIdentifier_roundtrip :
    ∀ r : Region, from_str (toIdentifier r) = Except.ok r := by
  intro r
  cases r <;> rfl

/-- Claim C2: `from_str s` returns `Ok` of some variant if and only if `s` is
exactly (byte-for-byte, case-sensitive, no normalization) one of the ten
canonical identifiers, and the returned variant is the one whose canonical
identifier is `s`. -/
theorem from_str_exact_match (s : String) :
    ((∃ r : Region, from_str s = Except.ok r) ↔ s ∈ canonicalIdentifiers) ∧
    (∀ r : Region, from_str s = Except.ok r → toIdentifier r = s) := by
  constructor
  · constructor
    · rintro ⟨r, hr⟩
      exact (mem_canonical_iff s).mpr ⟨r, (from_str_ok_helper s r).mp hr⟩
    · intro hmem
      obtain ⟨r, hr⟩ := (mem_canonical_iff s).mp hmem
      exact ⟨r, (from_str_ok_helper s r).mpr hr⟩
  · intro r hr
    exact (from_str_ok_helper s r).mp hr

/-- Witness for C2 at the concrete input `"us-east-1"`. -/
theorem from_str_exact_match_witness :
    ("us-east-1" ∈ canonicalIdentifiers) ∧ toIdentifier Region.UsEast1 = "us-east-1" :=
  ⟨(from_str_exact_match "us-east-1").1.mp ⟨Region.UsEast1, by decide⟩,
   (from_str_exact_match "us-east-1").2 Region.UsEast1 (by decide)⟩

/-- Claim C3: on every input `s` that is not one of the ten canonical
identifiers, `from_str` fails with a `ParseRegionError` whose message is
exactly `"Not a valid AWS region: "` followed by `s` verbatim, and this is the
only failure path: every error carries that message and only non-canonical
inputs produce errors. -/
theorem from_str_error_message (s : String) :
    (s ∉ canonicalIdentifiers →
      from_str s = Except.error { message := "Not a valid AWS region: " ++ s }) ∧
    (∀ e : ParseRegionError, from_str s = Except.error e →
      s ∉ canonicalIdentifiers ∧ e.message = "Not a valid AWS region: " ++ s) := by
  constructor
  · intro h
    exact from_str_not_mem s h
  · intro e he
    by_cases hmem : s ∈ canonicalIdentifiers
    · obtain ⟨r, hr⟩ := (mem_canonical_iff s).mp hmem
      have hok := (from_str_ok_helper s r).mpr hr
      rw [he] at hok
      exact Except.noConfusion hok
    · refine ⟨hmem, ?_⟩
      have herr := from_str_not_mem s hmem
      rw [he] at herr
      injection herr with h'
      rw [h']
      rfl

/-- Witness for C3 at the concrete non-canonical input `"foo"`. -/
theorem from_str_error_message_witness :
    from_str "foo" = Except.error { message := "Not a valid AWS region: foo" } :=
  (from_str_error_message "foo").1 (by decide)

/-- Claim C4: `toIdentifier` is injective over the ten variants: distinct
variants map to distinct identifier strings. -/
theorem toIdentifier_injective_on_variants :
    ∀ r1 r2 : Region, r1 ≠ r2 → toIdentifier r1 ≠ toIdentifier r2 := by
  intro r1 r2 hne
  cases r1 <;> cases r2 <;>
    first
      | exact absurd rfl hne
      | decide

/-- Witness for C4 at the concrete pair `UsEast1`, `UsWest1`. -/
theorem toIdentifier_injective_on_variants_witness :
    toIdentifier Region.UsEast1 ≠ toIdentifier Region.UsWest1 :=
  toIdentifier_injective_on_variants Region.UsEast1 Region.UsWest1 (by decide)

/-- Claim C5: `toIdentifier` is total on `Region` — for every variant it
yields a string, and that string is one of the ten canonical identifiers. -/
theorem toIdentifier_total :
    ∀ r : Region, toIdentifier r ∈ canonicalIdentifiers := by
  intro r
  cases r <;> simp [toIdentifier, canonicalIdentifiers]

/-- Claim C6: reverse round-trip — whenever `from_str s = Ok r`, the canonical
identifier of `r` is exactly `s`, so each canonical identifier maps back to
exactly one variant and each variant is produced from no other string. -/
theorem from_str_reverse_roundtrip :
    ∀ (s : String) (r : Region), from_str s = Except.ok r → toIdentifier r = s := by
  intro s r h
  exact (from_str_ok_helper s r).mp h

/-- Witness for C6 at the concrete input `"cn-north-1"`. -/
theorem from_str_reverse_roundtrip_witness :
    toIdentifier Region.CnNorth1 = "cn-north-1" :=
  from_str_reverse_roundtrip "cn-north-1" Region.CnNorth1 (by decide)

/-- Claim C7: `from_str` and `toIdentifier` are deterministic (and, being
pure functions of their argument in this embedding, side-effect free): equal
inputs yield equal results, whether `Ok` variants or errors with their
messages. -/
theorem parse_deterministic :
    ∀ (s1 s2 : String) (r1 r2 : Region), s1 = s2 → r1 = r2 →
      from_str s1 = from_str s2 ∧ toIdentifier r1 = toIdentifier r2 := by
  intro s1 s2 r1 r2 hs hr
  subst hs
  subst hr
  exact ⟨rfl, rfl⟩

/-- Witness for C7 at the concrete inputs `"abc"` and `UsEast1`. -/
theorem parse_deterministic_witness :
    from_str "abc" = from_str "abc" ∧
      toIdentifier Region.UsEast1 = toIdentifier Region.UsEast1 :=
  parse_deterministic "abc" "abc" Region.UsEast1 Region.UsEast1 rfl rfl

/-- Claim C8: case sensitivity — `from_str "US-EAST-1"` fails with a
`ParseRegionError` rather than returning `Ok UsEast1`. -/
theorem from_str_case_sensitive :
    from_str "US-EAST-1" = Except.error (ParseRegionError.new "US-EAST-1") ∧
      from_str "US-EAST-1" ≠ Except.ok Region.UsEast1 := by
  constructor
  · rfl
  · decide

/-- Claim C9: `from_str ""` fails, and the resulting error's message is
exactly `"Not a valid AWS region: "` — the fixed prefix followed by the empty
input, ending with the space after the colon. -/
theorem from_str_empty_input :
    from_str "" = Except.error { message := "Not a valid AWS region: " } ∧
      (ParseRegionError.new "").message = "Not a valid AWS region: " := by
  constructor
  · rfl
  · rfl

/-- Claim C10: distinct failing inputs yield distinct error values — the
message `"Not a valid AWS region: " ++ input` is injective in the input, and
`ParseRegionError` equality is determined solely by the message field. -/
theorem parse_error_values_distinct :
    ∀ s1 s2 : String, s1 ≠ s2 → ParseRegionError.new s1 ≠ ParseRegionError.new s2 := by
  intro s1 s2 hne heq
  exact hne (new_inj s1 s2 heq)

/-- Witness for C10 at the concrete pair of failing inputs `"a"`, `"b"`. -/
theorem parse_error_values_distinct_witness :
    ParseRegionError.new "a" ≠ ParseRegionError.new "b" :=
  parse_error_values_distinct "a" "b" (by decide)

end Rusoto
